import Mathlib

/-!
Verification development for the autonoma orchestration engine.

The definitions below are a shallow embedding of the Python sources:
  - `autonoma/core/state.py`    (StateManager over SQLite; tables modelled as lists of rows)
  - `autonoma/core/orchestrator.py` (scheduler loop, retry and escalation, pause and resume)
  - `autonoma/agents/developer.py`  (DeveloperAgent.run, DeveloperPool)
  - `autonoma/agents/staff_engineer.py` (get_parallel_tasks)

Database tables are modelled as lists of row records; an SQL
`UPDATE ... WHERE col = v` becomes a `List.map` of a row transformer that
only changes matching rows, and `cursor.rowcount` becomes a `countP`
of the matching rows.  Fallible calls return `Except`/`Option`.  The
asynchronous scheduler loop is modelled as a small-step machine driven by
an event list: one `pass` event is one iteration of the `while` body
(admission of ready tasks followed by harvesting of finished executions),
and a `finish` event is the completion of one spawned execution, carrying
an abstract outcome that determines the database writes the worker
performed while running.
-/

namespace Autonoma

/-- Task status enumeration (state.py TaskStatus). -/
inductive TaskStatus
  | PENDING
  | IN_PROGRESS
  | REVIEW
  | MERGED
  | FAILED
  | BLOCKED
deriving DecidableEq, Repr

/-- Agent status enumeration (state.py AgentStatus). -/
inductive AgentStatus
  | IDLE
  | RUNNING
  | WAITING
  | ERROR
  | TERMINATED
deriving DecidableEq, Repr

/-- Task row (state.py Task / the tasks table).  Fields the scheduler never
reads or writes (branch_name, worktree_path, timestamps, metadata) are kept
as `description`-like opaque payload: `description` stands in for all of
them and shows that untouched columns are preserved. -/
structure Task where
  task_id : String
  description : String := ""
  agent_id : Option String := none
  status : TaskStatus := TaskStatus.PENDING
  retry_count : Nat := 0
  token_usage : Nat := 0
  parent_task_id : Option String := none
  dependencies : List String := []
deriving DecidableEq, Repr

/-- Agent row (state.py AgentRecord / the agents table). -/
structure AgentRecord where
  agent_id : String
  agent_type : String := ""
  status : AgentStatus := AgentStatus.IDLE
  current_task_id : Option String := none
  token_usage : Nat := 0
deriving DecidableEq, Repr

/-- The SQLite database owned by StateManager: tasks and agents tables
(milestones and logs are not needed by the claims). -/
structure DB where
  tasks : List Task := []
  agents : List AgentRecord := []
deriving DecidableEq, Repr

/-- Config (config.py): max_workers defaults to 5, max_retries to 3. -/
structure Config where
  max_workers : Nat := 5
  max_retries : Nat := 3
deriving DecidableEq, Repr

/-- The default configuration. -/
def defaultConfig : Config := {}

/-- Python truthiness of an `str | None` value: `None` and `""` are falsy.
Used for the `if agent_id:` test in StateManager.update_task_status. -/
def pyTruthy : Option String → Bool
  | none => false
  | some s => s ≠ ""

/-- Row transformer for update_task_status: the SQL UPDATE touches rows
whose task_id matches; with a truthy agent_id it also sets the agent_id
column, otherwise it sets only the status column. -/
def updStatusRow (tid : String) (st : TaskStatus) (aid : Option String) (t : Task) : Task :=
  if t.task_id = tid then
    if pyTruthy aid then { t with status := st, agent_id := aid }
    else { t with status := st }
  else t

/-- StateManager.update_task_status (state.py lines 261-277). -/
def update_task_status (db : DB) (tid : String) (st : TaskStatus) (aid : Option String) : DB :=
  { db with tasks := db.tasks.map (updStatusRow tid st aid) }

/-- StateManager.get_task: the first row whose task_id matches (task_id is
UNIQUE in the schema, so at most one row matches in a well-formed DB). -/
def get_task (db : DB) (tid : String) : Option Task :=
  db.tasks.find? (fun t => t.task_id == tid)

/-- Row transformer for increment_retry. -/
def incRetryRow (tid : String) (t : Task) : Task :=
  if t.task_id = tid then { t with retry_count := t.retry_count + 1 } else t

/-- StateManager.increment_retry (state.py lines 279-293): relative UPDATE
then SELECT of the new count (0 when the row does not exist). -/
def increment_retry (db : DB) (tid : String) : DB × Nat :=
  let db' : DB := { db with tasks := db.tasks.map (incRetryRow tid) }
  match get_task db' tid with
  | some t => (db', t.retry_count)
  | none => (db', 0)

/-- Row transformer for update_task_tokens (relative `token_usage += n`). -/
def addTokensRow (tid : String) (n : Nat) (t : Task) : Task :=
  if t.task_id = tid then { t with token_usage := t.token_usage + n } else t

/-- StateManager.update_task_tokens (state.py lines 295-303). -/
def update_task_tokens (db : DB) (tid : String) (n : Nat) : DB :=
  { db with tasks := db.tasks.map (addTokensRow tid n) }

/-- Agent-row transformer for the crash-recovery sweep: RUNNING becomes
IDLE, every other status is untouched. -/
def cleanupAgentRow (a : AgentRecord) : AgentRecord :=
  if a.status = AgentStatus.RUNNING then { a with status := AgentStatus.IDLE } else a

/-- Task-row transformer for the crash-recovery sweep: IN_PROGRESS becomes
PENDING with agent_id set to NULL, every other status is untouched. -/
def cleanupTaskRow (t : Task) : Task :=
  if t.status = TaskStatus.IN_PROGRESS then
    { t with status := TaskStatus.PENDING, agent_id := none }
  else t

/-- StateManager.cleanup_stale_states (state.py lines 402-430): two UPDATEs
whose rowcounts are summed and returned. -/
def cleanup_stale_states (db : DB) : DB × Nat :=
  let agentCount := db.agents.countP (fun a => a.status == AgentStatus.RUNNING)
  let taskCount := db.tasks.countP (fun t => t.status == TaskStatus.IN_PROGRESS)
  ({ tasks := db.tasks.map cleanupTaskRow, agents := db.agents.map cleanupAgentRow },
   agentCount + taskCount)

/-- StaffEngineerAgent.get_parallel_tasks (staff_engineer.py lines 286-302):
keep, in order, the tasks whose status is PENDING and whose dependencies
are all members of the completed set. -/
def get_parallel_tasks (tasks : List Task) (completed : List String) : List Task :=
  tasks.filter (fun t =>
    t.status == TaskStatus.PENDING &&
    t.dependencies.all (fun dep => completed.contains dep))

/-- Orchestrator state enum (orchestrator.py OrchestratorState). -/
inductive OrchestratorState
  | IDLE
  | PLANNING
  | EXECUTING
  | REVIEWING
  | COMPLETED
  | FAILED
  | PAUSED
deriving DecidableEq, Repr

/-- Events emitted by the orchestrator (orchestrator.py OrchestratorEvent). -/
inductive OrchestratorEvent
  | STARTED
  | PLANNING_STARTED
  | PLANNING_COMPLETED
  | MILESTONE_STARTED
  | MILESTONE_COMPLETED
  | TASK_QUEUED
  | TASK_STARTED
  | TASK_COMPLETED
  | TASK_FAILED
  | REVIEW_STARTED
  | REVIEW_COMPLETED
  | ESCALATION
  | COMPLETED
  | FAILED
  | PAUSED
deriving DecidableEq, Repr

/-- Orchestrator._handle_task_failure (orchestrator.py lines 374-396).
Takes the database, the in-memory `_failed_tasks` set and the emitted
event log; emits TASK_FAILED, returns early when the task row is missing,
otherwise increments the persisted retry_count and either escalates
(BLOCKED, failed set, ESCALATION event) or sets the status back to
PENDING. -/
def handle_task_failure (db : DB) (failedSet : List String)
    (events : List OrchestratorEvent) (tid : String) (max_retries : Nat) :
    DB × List String × List OrchestratorEvent :=
  let events := events ++ [OrchestratorEvent.TASK_FAILED]
  match get_task db tid with
  | none => (db, failedSet, events)
  | some _ =>
    let r := increment_retry db tid
    if r.2 ≥ max_retries then
      (update_task_status r.1 tid TaskStatus.BLOCKED none,
       failedSet ++ [tid],
       events ++ [OrchestratorEvent.ESCALATION])
    else
      (update_task_status r.1 tid TaskStatus.PENDING none, failedSet, events)

/-- Stop reasons of a backend session (wrapper.py StopReason). -/
inductive StopReason
  | END_TURN
  | PAUSE_TURN
  | TOOL_USE
  | MAX_TOKENS
  | RATE_LIMIT
  | ERROR
  | TIMEOUT
  | USER_INTERRUPT
deriving DecidableEq, Repr

/-- Output of one backend session call (wrapper.py SessionOutput). -/
structure SessionOutput where
  text : String
  stop_reason : Option StopReason := none
  tokens_used : Nat := 0
deriving DecidableEq, Repr

/-- Does `pat` occur at the head of `l`? (helper for Python's `in`). -/
def matchesAt : List Char → List Char → Bool
  | [], _ => true
  | _ :: _, [] => false
  | p :: ps, c :: cs => p == c && matchesAt ps cs

/-- Does `pat` occur anywhere in `l`? (helper for Python's `in`). -/
def occursIn (pat : List Char) : List Char → Bool
  | [] => pat.isEmpty
  | c :: cs => matchesAt pat (c :: cs) || occursIn pat cs

/-- Python's `pat in s` substring test on strings. -/
def containsText (s pat : String) : Bool :=
  occursIn pat.toList s.toList

/-- Python's `s.lower()` as a character list (the texts involved are
ASCII, for which per-character lowering is `str.lower`). -/
def lowerChars (s : String) : List Char :=
  s.toList.map Char.toLower

/-- The success indicator phrases of DeveloperAgent._check_completion. -/
def successIndicators : List String :=
  ["tests pass", "committed", "implementation complete", "all criteria met"]

/-- DeveloperAgent._check_completion (developer.py lines 200-219). -/
def check_completion (output : SessionOutput) : Bool :=
  if containsText output.text "[TASK_COMPLETE]" then true
  else if output.stop_reason == some StopReason.END_TURN then
    successIndicators.any (fun ind => occursIn ind.toList (lowerChars output.text))
  else false

/-- Abstract outcome of one worker execution, standing for the behaviour of
the external backend during DeveloperAgent.run: either execute_prompt
raised, or it produced a first output and (when the debug-and-retry branch
is taken) a debug output. -/
inductive DevOutcome
  | raises (msg : String)
  | outputs (first : SessionOutput) (dbg : SessionOutput)
deriving DecidableEq, Repr

/-- DeveloperAgent.run (developer.py lines 87-163) restricted to its
database writes and returned success flag: set the task IN_PROGRESS with
the worker's agent id, then on exception set it FAILED; otherwise record
tokens, check completion, and on success set REVIEW, on an ERROR stop
increment the retry count, setting FAILED when it reaches max_retries and
otherwise debugging once and re-checking completion. -/
def developer_run (db : DB) (tid : String) (aid : String) (max_retries : Nat)
    (oc : DevOutcome) : DB × Bool :=
  let db := update_task_status db tid TaskStatus.IN_PROGRESS (some aid)
  match oc with
  | DevOutcome.raises _ =>
    (update_task_status db tid TaskStatus.FAILED none, false)
  | DevOutcome.outputs out dbg =>
    let db := if out.tokens_used > 0 then update_task_tokens db tid out.tokens_used else db
    if check_completion out then
      (update_task_status db tid TaskStatus.REVIEW none, true)
    else if out.stop_reason == some StopReason.ERROR then
      let r := increment_retry db tid
      if r.2 ≥ max_retries then
        (update_task_status r.1 tid TaskStatus.FAILED none, false)
      else
        let db := if dbg.tokens_used > 0 then update_task_tokens r.1 tid dbg.tokens_used else r.1
        (db, check_completion dbg)
    else (db, false)

/-- DeveloperPool (developer.py lines 251-316): `active` models the
_active_agents dict as an association list task_id to worker agent_id. -/
structure DeveloperPool where
  max_workers : Nat
  active : List (String × String) := []
  worker_count : Nat := 0
deriving DecidableEq, Repr

/-- DeveloperPool.active_count. -/
def DeveloperPool.active_count (p : DeveloperPool) : Nat := p.active.length

/-- DeveloperPool.available_slots. -/
def DeveloperPool.available_slots (p : DeveloperPool) : Nat :=
  p.max_workers - p.active_count

/-- DeveloperPool.spawn_worker (developer.py lines 282-299): raises
"Worker pool at capacity" when active_count has reached max_workers,
otherwise generates worker-N and records the new active agent. -/
def DeveloperPool.spawn_worker (p : DeveloperPool) (tid : String) :
    Except String (DeveloperPool × String) :=
  if p.active_count ≥ p.max_workers then Except.error "Worker pool at capacity"
  else
    let n := p.worker_count + 1
    let wid := "worker-" ++ toString n
    Except.ok ({ p with worker_count := n, active := p.active ++ [(tid, wid)] }, wid)

/-- DeveloperPool.release_worker (developer.py lines 301-306): pop the
task's entry from the active dict. -/
def DeveloperPool.release_worker (p : DeveloperPool) (tid : String) : DeveloperPool :=
  { p with active := p.active.filter (fun e => e.1 != tid) }

/-- State of Orchestrator._execute_tasks (orchestrator.py lines 264-328)
together with the orchestrator fields it reads: the in-memory
pending_tasks map (as the ordered list of its values), the in_flight map
(task_id paired with the execution's result, `none` while the asyncio
task is still running), the developer pool, the store, the in-memory
_completed_tasks and _failed_tasks sets, the pause gate (`paused = true`
means _pause_event is cleared), the _state field and the emitted events. -/
structure SchedState where
  pending : List Task
  inFlight : List (String × Option Bool)
  pool : DeveloperPool
  db : DB
  completed : List String
  failed : List String
  paused : Bool
  ost : OrchestratorState
  events : List OrchestratorEvent
deriving DecidableEq, Repr

/-- One admission inside the `for task in ready_tasks[:available_slots]`
loop: skip the task when it is already in flight, emit TASK_STARTED, spawn
a worker (a capacity error would raise out of the loop, so no admission
happens in that case), record it in flight and pop it from pending. -/
def admitOne (s : SchedState) (t : Task) : SchedState :=
  if s.inFlight.any (fun e => e.1 == t.task_id) then s
  else
    let s' := { s with events := s.events ++ [OrchestratorEvent.TASK_STARTED] }
    match s'.pool.spawn_worker t.task_id with
    | Except.error _ => s'
    | Except.ok pw =>
      { s' with
        pool := pw.1,
        inFlight := s'.inFlight ++ [(t.task_id, none)],
        pending := s'.pending.filter (fun u => u.task_id != t.task_id) }

/-- The admission half of one loop pass: compute the ready tasks from the
in-memory pending map and the completed set, then admit at most
available_slots of them (the slice bound is evaluated once, before any
spawn). -/
def admitReady (s : SchedState) : SchedState :=
  let ready := get_parallel_tasks s.pending s.completed
  (ready.take s.pool.available_slots).foldl admitOne s

/-- Harvest of one finished execution (the body of `for completed_task in
done`): drop it from in_flight; on success add the id to the completed set
and emit TASK_COMPLETED, on failure apply the retry and escalation policy;
release the worker slot regardless of outcome. -/
def harvestOne (max_retries : Nat) (s : SchedState) (e : String × Option Bool) : SchedState :=
  match e.2 with
  | none => s
  | some ok =>
    let s' := { s with inFlight := s.inFlight.filter (fun x => x.1 != e.1) }
    let s'' :=
      if ok then
        { s' with
          completed := if s'.completed.contains e.1 then s'.completed else s'.completed ++ [e.1],
          events := s'.events ++ [OrchestratorEvent.TASK_COMPLETED] }
      else
        let r := handle_task_failure s'.db s'.failed s'.events e.1 max_retries
        { s' with db := r.1, failed := r.2.1, events := r.2.2 }
    { s'' with pool := s''.pool.release_worker e.1 }

/-- The harvesting half of one loop pass: `asyncio.wait` returns the
subset of in-flight executions that have finished; each is harvested. -/
def harvestFinished (max_retries : Nat) (s : SchedState) : SchedState :=
  (s.inFlight.filter (fun e => e.2.isSome)).foldl (harvestOne max_retries) s

/-- Completion of the asyncio task for `tid`: if that execution is in
flight and still running, apply the database writes DeveloperAgent.run
performed (determined by the outcome) and record the returned success
flag; the worker's agent id is looked up in the pool. -/
def applyFinish (max_retries : Nat) (s : SchedState) (tid : String) (oc : DevOutcome) : SchedState :=
  if s.inFlight.any (fun e => e.1 == tid && e.2 == none) then
    let aid := (((s.pool.active.find? (fun e => e.1 == tid)).map Prod.snd).getD "")
    let r := developer_run s.db tid aid max_retries oc
    { s with
      db := r.1,
      inFlight := s.inFlight.map (fun e => if e.1 == tid then (e.1, some r.2) else e) }
  else s

/-- Events that drive the scheduler machine: one iteration of the while
body (`pass`), completion of one spawned execution (`finish`), and the
orchestrator's pause and resume calls. -/
inductive SchedEvent
  | loopPass
  | finish (tid : String) (oc : DevOutcome)
  | pause
  | resume
deriving DecidableEq, Repr

/-- One step of the scheduler machine.  A loop pass blocks on the pause
gate before doing anything (orchestrator.py line 274), so while paused it
changes nothing; otherwise it admits ready tasks and harvests finished
executions.  `finish` is the progress of an already-running execution and
is not gated by pause.  `pause` clears the gate, sets _state to PAUSED and
emits PAUSED (orchestrator.py lines 398-402); `resume` sets the gate and
sets _state to EXECUTING (lines 404-407). -/
def schedStep (max_retries : Nat) (s : SchedState) : SchedEvent → SchedState
  | SchedEvent.loopPass =>
    if s.paused then s else harvestFinished max_retries (admitReady s)
  | SchedEvent.finish tid oc => applyFinish max_retries s tid oc
  | SchedEvent.pause =>
    { s with paused := true, ost := OrchestratorState.PAUSED,
             events := s.events ++ [OrchestratorEvent.PAUSED] }
  | SchedEvent.resume =>
    { s with paused := false, ost := OrchestratorState.EXECUTING }

/-- Run the scheduler machine over a list of events. -/
def schedRun (max_retries : Nat) (s : SchedState) (evs : List SchedEvent) : SchedState :=
  evs.foldl (schedStep max_retries) s

/-- The state at entry of Orchestrator._execute_tasks for a milestone's
task list: pending_tasks holds the tasks, nothing is in flight, the pool
is fresh, _state is set to EXECUTING, and the completed/failed sets carry
over (empty for the first milestone). -/
def initSched (cfg : Config) (tasks : List Task) (db : DB) : SchedState :=
  { pending := tasks
    inFlight := []
    pool := { max_workers := cfg.max_workers }
    db := db
    completed := []
    failed := []
    paused := false
    ost := OrchestratorState.EXECUTING
    events := [] }

/-- Status column of a task row, as the store reports it. -/
def taskStatusIn (db : DB) (tid : String) : Option TaskStatus :=
  (get_task db tid).map Task.status

/-- retry_count column of a task row, as the store reports it. -/
def taskRetryIn (db : DB) (tid : String) : Option Nat :=
  (get_task db tid).map Task.retry_count

/-- agent_id column of a task row, as the store reports it. -/
def taskAgentIn (db : DB) (tid : String) : Option (Option String) :=
  (get_task db tid).map Task.agent_id

/-- The machine invariant behind the pool bound: the in-flight map and the
pool's active dict hold the same task ids in the same order, and the pool,
whose capacity is N, never holds more than N active agents. -/
def poolInv (N : Nat) (s : SchedState) : Prop :=
  s.inFlight.map Prod.fst = s.pool.active.map Prod.fst
  ∧ s.pool.max_workers = N
  ∧ s.pool.active.length ≤ N

/-- One invocation of the retry and escalation policy, threading the store,
the failed set and the event log as one state (as successive harvests of
the same repeatedly failing task would). -/
def handleFailureStep (tid : String) (maxR : Nat)
    (st : DB × List String × List OrchestratorEvent) :
    DB × List String × List OrchestratorEvent :=
  handle_task_failure st.1 st.2.1 st.2.2 tid maxR

/-! ## Concrete demonstration inputs -/

/-- The single pending task of the retry demonstration runs. -/
def retryDemoTask : Task := { task_id := "T1", description := "demo" }

/-- An execution output that fails: the backend ended its turn without the
completion marker or any success indicator. -/
def failingOutput : SessionOutput :=
  { text := "did not finish", stop_reason := some StopReason.END_TURN }

/-- Abstract outcome of an execution that fails without a backend error. -/
def failingOutcome : DevOutcome := DevOutcome.outputs failingOutput { text := "" }

/-- A full scheduler-loop run on one task whose only execution fails: the
task is admitted, its execution finishes unsuccessfully, and the next pass
harvests the failure. -/
def retryDemoRun : SchedState :=
  schedRun defaultConfig.max_retries
    (initSched defaultConfig [retryDemoTask] { tasks := [retryDemoTask] })
    [SchedEvent.loopPass, SchedEvent.finish "T1" failingOutcome, SchedEvent.loopPass]

/-- The single pending task of the escalation demonstration run. -/
def escalationDemoTask : Task := { task_id := "T6" }

/-- A scheduler-loop run (max_retries 3) on one task that fails on every
attempt the loop gives it, driven until nothing changes any more. -/
def escalationDemoRun : SchedState :=
  schedRun 3
    (initSched defaultConfig [escalationDemoTask] { tasks := [escalationDemoTask] })
    [SchedEvent.loopPass,
     SchedEvent.finish "T6"
       (DevOutcome.outputs { text := "nope", stop_reason := some StopReason.END_TURN }
         { text := "" }),
     SchedEvent.loopPass, SchedEvent.loopPass, SchedEvent.loopPass]

/-- A store holding one fresh task, for the terminality demonstration. -/
def terminalDemoDB : DB := { tasks := [{ task_id := "T7" }] }

/-- The store after the worker executing T7 raised: DeveloperAgent.run's
exception handler has persisted status FAILED. -/
def terminalDemoFailed : DB :=
  (developer_run terminalDemoDB "T7" "worker-1" 3 (DevOutcome.raises "boom")).1

/-- A machine state in which the orchestrator is REVIEWING when pause is
called. -/
def reviewingDemoState : SchedState :=
  { pending := []
    inFlight := []
    pool := { max_workers := 5 }
    db := {}
    completed := []
    failed := []
    paused := false
    ost := OrchestratorState.REVIEWING
    events := [] }

/-! ## Helper lemmas -/

/-- A list is pointwise related to its image under a map. -/
theorem forallTwo_map_self {α β : Type} (R : α → β → Prop) (f : α → β)
    (l : List α) (h : ∀ x ∈ l, R x (f x)) : List.Forall₂ R l (l.map f) := by
  induction l with
  | nil => simp
  | cons a t ih =>
    simp only [List.map_cons, List.forall₂_cons]
    exact ⟨h a (by simp), ih (fun x hx => h x (by simp [hx]))⟩

/-- The crash-recovery task transformer is idempotent. -/
theorem cleanupTaskRow_idem (t : Task) : cleanupTaskRow (cleanupTaskRow t) = cleanupTaskRow t := by
  by_cases h : t.status = TaskStatus.IN_PROGRESS <;> simp [cleanupTaskRow, h]

/-- The crash-recovery agent transformer is idempotent. -/
theorem cleanupAgentRow_idem (a : AgentRecord) :
    cleanupAgentRow (cleanupAgentRow a) = cleanupAgentRow a := by
  by_cases h : a.status = AgentStatus.RUNNING <;> simp [cleanupAgentRow, h]

/-- After the crash-recovery transformer no task is IN_PROGRESS. -/
theorem cleanupTaskRow_not_in_progress (t : Task) :
    ¬ (cleanupTaskRow t).status = TaskStatus.IN_PROGRESS := by
  by_cases h : t.status = TaskStatus.IN_PROGRESS <;> simp [cleanupTaskRow, h]

/-- After the crash-recovery transformer no agent is RUNNING. -/
theorem cleanupAgentRow_not_running (a : AgentRecord) :
    ¬ (cleanupAgentRow a).status = AgentStatus.RUNNING := by
  by_cases h : a.status = AgentStatus.RUNNING <;> simp [cleanupAgentRow, h]

/-- Folding a step function preserves any property each step preserves. -/
theorem foldl_preserve {σ α : Type} (P : σ → Prop) (f : σ → α → σ)
    (hf : ∀ s a, P s → P (f s a)) : ∀ (l : List α) (s : σ), P s → P (l.foldl f s) := by
  intro l
  induction l with
  | nil => intro s hs; simpa using hs
  | cons a t ih => intro s hs; simpa using ih (f s a) (hf s a hs)

/-- Removing the entries with a given key commutes with projecting keys. -/
theorem mapFst_filter_ne {β : Type} (l : List (String × β)) (k : String) :
    (l.filter (fun x => x.1 != k)).map Prod.fst
      = (l.map Prod.fst).filter (fun a => a != k) := by
  induction l with
  | nil => rfl
  | cons e t ih =>
    by_cases h : e.1 = k
    · have hb : (e.1 != k) = false := by simp [h]
      simp [List.filter_cons, hb, h, ih]
    · have hb : (e.1 != k) = true := by simp [h]
      simp [List.filter_cons, hb, ih]

/-- Updating the payload of the entries with a given key preserves keys. -/
theorem mapFst_set_result (l : List (String × Option Bool)) (tid : String) (r : Option Bool) :
    (l.map (fun e => if e.1 == tid then (e.1, r) else e)).map Prod.fst
      = l.map Prod.fst := by
  induction l with
  | nil => rfl
  | cons e t ih =>
    simp only [List.map_cons, ih]
    congr 1
    split <;> rfl

/-- Searching a list commutes with a map that preserves the searched key. -/
theorem find_map_key_pres (f : Task → Task) (hf : ∀ t, (f t).task_id = t.task_id)
    (tid : String) (l : List Task) :
    (l.map f).find? (fun t => t.task_id == tid)
      = (l.find? (fun t => t.task_id == tid)).map f := by
  induction l with
  | nil => rfl
  | cons a t ih =>
    by_cases h : a.task_id = tid
    · have h' : (f a).task_id = tid := by rw [hf]; exact h
      simp [List.find?_cons, h, h']
    · have h' : ¬ (f a).task_id = tid := by rw [hf]; exact h
      simp [List.find?_cons, h, h', ih]

/-- The status-update row transformer preserves task_id. -/
theorem updStatusRow_key (tid : String) (st : TaskStatus) (aid : Option String) (t : Task) :
    (updStatusRow tid st aid t).task_id = t.task_id := by
  by_cases h : t.task_id = tid
  · by_cases ha : pyTruthy aid <;> simp [updStatusRow, h, ha]
  · simp [updStatusRow, h]

/-- The retry-increment row transformer preserves task_id. -/
theorem incRetryRow_key (tid : String) (t : Task) :
    (incRetryRow tid t).task_id = t.task_id := by
  by_cases h : t.task_id = tid <;> simp [incRetryRow, h]

/-- The token-update row transformer preserves task_id. -/
theorem addTokensRow_key (tid : String) (n : Nat) (t : Task) :
    (addTokensRow tid n t).task_id = t.task_id := by
  by_cases h : t.task_id = tid <;> simp [addTokensRow, h]

/-- Reading a row after update_task_status. -/
theorem get_task_update_status (db : DB) (tid : String) (st : TaskStatus)
    (aid : Option String) (k : String) :
    get_task (update_task_status db tid st aid) k
      = (get_task db k).map (updStatusRow tid st aid) := by
  unfold get_task update_task_status
  exact find_map_key_pres _ (updStatusRow_key tid st aid) k db.tasks

/-- The store increment_retry returns leaves the database with the mapped
tasks table. -/
theorem increment_retry_fst (db : DB) (tid : String) :
    (increment_retry db tid).1 = { db with tasks := db.tasks.map (incRetryRow tid) } := by
  cases h : get_task { tasks := db.tasks.map (incRetryRow tid), agents := db.agents } tid <;>
    simp [increment_retry, h]

/-- Reading a row after increment_retry. -/
theorem get_task_increment (db : DB) (tid : String) (k : String) :
    get_task (increment_retry db tid).1 k = (get_task db k).map (incRetryRow tid) := by
  rw [increment_retry_fst]
  unfold get_task
  exact find_map_key_pres _ (incRetryRow_key tid) k db.tasks

/-- Reading a row after update_task_tokens. -/
theorem get_task_update_tokens (db : DB) (tid : String) (n : Nat) (k : String) :
    get_task (update_task_tokens db tid n) k = (get_task db k).map (addTokensRow tid n) := by
  unfold get_task update_task_tokens
  exact find_map_key_pres _ (addTokensRow_key tid n) k db.tasks

/-- A row found by get_task carries the searched task_id. -/
theorem get_task_key (db : DB) (tid : String) (t : Task)
    (hget : get_task db tid = some t) : t.task_id = tid := by
  have := List.find?_some hget
  simpa using this

/-- The count returned by increment_retry is the found row's old count
plus one. -/
theorem increment_retry_val (db : DB) (tid : String) (t : Task)
    (hget : get_task db tid = some t) :
    (increment_retry db tid).2 = t.retry_count + 1 := by
  have htid : t.task_id = tid := get_task_key db tid t hget
  have h1 : get_task { db with tasks := db.tasks.map (incRetryRow tid) } tid
      = some (incRetryRow tid t) := by
    have := find_map_key_pres (incRetryRow tid) (incRetryRow_key tid) tid db.tasks
    unfold get_task at hget ⊢
    rw [this, hget]
    rfl
  unfold increment_retry
  simp only [h1]
  simp [incRetryRow, htid]

/-- The effect of one invocation of the retry and escalation policy on the
failed task's row, failed set and event log. -/
theorem handle_failure_row (db : DB) (fs : List String) (evs : List OrchestratorEvent)
    (tid : String) (maxR : Nat) (t : Task) (hget : get_task db tid = some t) :
    get_task (handle_task_failure db fs evs tid maxR).1 tid
      = some { t with retry_count := t.retry_count + 1,
                      status := if t.retry_count + 1 ≥ maxR then TaskStatus.BLOCKED
                                else TaskStatus.PENDING }
  ∧ (t.retry_count + 1 ≥ maxR →
      tid ∈ (handle_task_failure db fs evs tid maxR).2.1
      ∧ OrchestratorEvent.ESCALATION ∈ (handle_task_failure db fs evs tid maxR).2.2)
  ∧ (¬ t.retry_count + 1 ≥ maxR →
      (handle_task_failure db fs evs tid maxR).2.1 = fs) := by
  have htid : t.task_id = tid := get_task_key db tid t hget
  have hval : (increment_retry db tid).2 = t.retry_count + 1 :=
    increment_retry_val db tid t hget
  have hrow : get_task (increment_retry db tid).1 tid
      = some { t with retry_count := t.retry_count + 1 } := by
    rw [get_task_increment, hget]
    simp [incRetryRow, htid]
  by_cases hge : t.retry_count + 1 ≥ maxR
  · have heq : handle_task_failure db fs evs tid maxR
        = (update_task_status (increment_retry db tid).1 tid TaskStatus.BLOCKED none,
           fs ++ [tid],
           (evs ++ [OrchestratorEvent.TASK_FAILED]) ++ [OrchestratorEvent.ESCALATION]) := by
      unfold handle_task_failure
      rw [hget]
      simp only [hval]
      rw [if_pos hge]
    refine ⟨?_, fun _ => ⟨by rw [heq]; simp, by rw [heq]; simp⟩, fun hc => absurd hge hc⟩
    rw [heq, get_task_update_status, hrow]
    simp [updStatusRow, htid, pyTruthy, hge]
  · have heq : handle_task_failure db fs evs tid maxR
        = (update_task_status (increment_retry db tid).1 tid TaskStatus.PENDING none,
           fs, evs ++ [OrchestratorEvent.TASK_FAILED]) := by
      unfold handle_task_failure
      rw [hget]
      simp only [hval]
      rw [if_neg hge]
    refine ⟨?_, fun hc => absurd hc hge, fun _ => by rw [heq]⟩
    rw [heq, get_task_update_status, hrow]
    simp [updStatusRow, htid, pyTruthy, hge]

/-- Admission of a single ready task preserves the pool invariant: the
spawn guard refuses to grow the pool past its capacity. -/
theorem admitOne_poolInv (N : Nat) (s : SchedState) (t : Task) (h : poolInv N s) :
    poolInv N (admitOne s t) := by
  obtain ⟨hkeys, hN, hlen⟩ := h
  by_cases hguard : s.inFlight.any (fun e => e.1 == t.task_id)
  · simpa [admitOne, hguard] using ⟨hkeys, hN, hlen⟩
  · by_cases hcap : s.pool.active_count ≥ s.pool.max_workers
    · simp only [admitOne, hguard, Bool.false_eq_true, if_false,
        DeveloperPool.spawn_worker, hcap, if_true]
      exact ⟨hkeys, hN, hlen⟩
    · simp only [admitOne, hguard, Bool.false_eq_true, if_false,
        DeveloperPool.spawn_worker, hcap, if_false]
      refine ⟨?_, hN, ?_⟩
      · simpa using hkeys
      · have hlt : s.pool.active.length < N := by
          have h1 : s.pool.active_count < s.pool.max_workers := Nat.lt_of_not_le hcap
          simpa [DeveloperPool.active_count, hN] using h1
        simp only [List.length_append, List.length_cons, List.length_nil]
        omega

/-- Harvesting one finished execution preserves the pool invariant. -/
theorem harvestOne_poolInv (maxR N : Nat) (s : SchedState) (e : String × Option Bool)
    (h : poolInv N s) : poolInv N (harvestOne maxR s e) := by
  obtain ⟨hkeys, hN, hlen⟩ := h
  match he : e.2 with
  | none => simpa [harvestOne, he] using ⟨hkeys, hN, hlen⟩
  | some ok =>
    have hkeys' : (s.inFlight.filter (fun x => x.1 != e.1)).map Prod.fst
        = (s.pool.active.filter (fun x => x.1 != e.1)).map Prod.fst := by
      rw [mapFst_filter_ne, mapFst_filter_ne, hkeys]
    have hlen' : (s.pool.active.filter (fun x => x.1 != e.1)).length ≤ N :=
      le_trans (List.length_filter_le _ _) hlen
    by_cases hok : ok <;>
      simp [poolInv, harvestOne, he, hok, DeveloperPool.release_worker, hkeys', hN, hlen']

/-- Recording the completion of an execution preserves the pool invariant. -/
theorem applyFinish_poolInv (maxR N : Nat) (s : SchedState) (tid : String) (oc : DevOutcome)
    (h : poolInv N s) : poolInv N (applyFinish maxR s tid oc) := by
  obtain ⟨hkeys, hN, hlen⟩ := h
  by_cases hrun : s.inFlight.any (fun e => e.1 == tid && e.2 == none)
  · simp only [applyFinish, hrun, if_true]
    exact ⟨by rw [mapFst_set_result, hkeys], hN, hlen⟩
  · simpa [applyFinish, hrun] using ⟨hkeys, hN, hlen⟩

/-- Every step of the scheduler machine preserves the pool invariant. -/
theorem schedStep_poolInv (maxR N : Nat) (s : SchedState) (e : SchedEvent)
    (h : poolInv N s) : poolInv N (schedStep maxR s e) := by
  obtain ⟨hkeys, hN, hlen⟩ := h
  cases e with
  | loopPass =>
    by_cases hp : s.paused
    · simpa [schedStep, hp] using ⟨hkeys, hN, hlen⟩
    · simp only [schedStep, hp, Bool.false_eq_true, if_false]
      apply foldl_preserve (poolInv N) (harvestOne maxR)
        (fun s' e' h' => harvestOne_poolInv maxR N s' e' h')
      apply foldl_preserve (poolInv N) admitOne
        (fun s' t' h' => admitOne_poolInv N s' t' h')
      exact ⟨hkeys, hN, hlen⟩
  | finish tid oc => exact applyFinish_poolInv maxR N s tid oc ⟨hkeys, hN, hlen⟩
  | pause => simpa [schedStep] using ⟨hkeys, hN, hlen⟩
  | resume => simpa [schedStep] using ⟨hkeys, hN, hlen⟩

/-- Any run of the scheduler machine preserves the pool invariant. -/
theorem schedRun_poolInv (maxR N : Nat) (s : SchedState) (evs : List SchedEvent)
    (h : poolInv N s) : poolInv N (schedRun maxR s evs) :=
  foldl_preserve (poolInv N) (schedStep maxR)
    (fun s' e' h' => schedStep_poolInv maxR N s' e' h') evs s h

/-! ## Claim theorems -/

/-- Claim C1: in every execution of the scheduler loop the number of
concurrently in-flight work items never exceeds the pool capacity
(config.max_workers, default 5); spawn_worker fails fast with
"Worker pool at capacity" when active_count has reached max_workers; and
available_slots always equals max_workers minus active_count. -/
theorem pool_bound :
    (∀ (cfg : Config) (tasks : List Task) (db : DB) (evs : List SchedEvent),
        (schedRun cfg.max_retries (initSched cfg tasks db) evs).inFlight.length
          ≤ cfg.max_workers)
  ∧ (∀ (p : DeveloperPool) (tid : String), p.active_count ≥ p.max_workers →
        p.spawn_worker tid = Except.error "Worker pool at capacity")
  ∧ (∀ p : DeveloperPool, p.available_slots = p.max_workers - p.active_count)
  ∧ defaultConfig.max_workers = 5 := by
  refine ⟨?_, ?_, fun p => rfl, rfl⟩
  · intro cfg tasks db evs
    have h0 : poolInv cfg.max_workers (initSched cfg tasks db) :=
      ⟨rfl, rfl, Nat.zero_le _⟩
    obtain ⟨hkeys, _, hlen⟩ :=
      schedRun_poolInv cfg.max_retries cfg.max_workers (initSched cfg tasks db) evs h0
    have hlenEq : (schedRun cfg.max_retries (initSched cfg tasks db) evs).inFlight.length
        = (schedRun cfg.max_retries (initSched cfg tasks db) evs).pool.active.length := by
      have := congrArg List.length hkeys
      simpa using this
    omega
  · intro p tid h
    simp [DeveloperPool.spawn_worker, h]

/-- Witness for C1: a one-task run stays within the default capacity, a
full one-slot pool refuses a second spawn, and a five-slot pool with one
active worker reports four free slots. -/
theorem pool_bound_witness :
    (schedRun defaultConfig.max_retries
        (initSched defaultConfig [{ task_id := "T" }] { tasks := [{ task_id := "T" }] })
        [SchedEvent.loopPass]).inFlight.length ≤ defaultConfig.max_workers
  ∧ DeveloperPool.spawn_worker { max_workers := 1, active := [("A", "worker-1")] } "B"
      = Except.error "Worker pool at capacity"
  ∧ DeveloperPool.available_slots { max_workers := 5, active := [("A", "worker-1")] } = 5 - 1 := by
  refine ⟨pool_bound.1 defaultConfig [{ task_id := "T" }] { tasks := [{ task_id := "T" }] }
      [SchedEvent.loopPass],
    pool_bound.2.1 { max_workers := 1, active := [("A", "worker-1")] } "B" (by decide),
    ?_⟩
  rw [pool_bound.2.2.1 { max_workers := 5, active := [("A", "worker-1")] }]
  decide

/-- Claim C2: get_parallel_tasks returns exactly the tasks whose status is
PENDING and all of whose dependency ids are members of the completed set;
in particular a task with a dependency `aid` is never returned while `aid`
is absent from the completed set. -/
theorem ready_tasks_characterization (tasks : List Task) (completed : List String) :
    (∀ t, t ∈ get_parallel_tasks tasks completed ↔
      (t ∈ tasks ∧ t.status = TaskStatus.PENDING ∧ ∀ d ∈ t.dependencies, d ∈ completed))
  ∧ (∀ b aid, b ∈ get_parallel_tasks tasks completed → aid ∈ b.dependencies →
      aid ∈ completed) := by
  have hmem : ∀ t : Task, t ∈ get_parallel_tasks tasks completed ↔
      (t ∈ tasks ∧ t.status = TaskStatus.PENDING ∧ ∀ d ∈ t.dependencies, d ∈ completed) := by
    intro t
    simp [get_parallel_tasks, List.mem_filter, List.all_eq_true, and_assoc]
  refine ⟨hmem, ?_⟩
  intro b aid hb hd
  exact ((hmem b).mp hb).2.2 aid hd

/-- Witness for C2 at a concrete input: with A completed, the pending task
B depending on A is returned. -/
theorem ready_tasks_characterization_witness :
    ({ task_id := "B", dependencies := ["A"] } : Task) ∈
      get_parallel_tasks [{ task_id := "B", dependencies := ["A"] }] ["A"] :=
  ((ready_tasks_characterization [{ task_id := "B", dependencies := ["A"] }] ["A"]).1
    { task_id := "B", dependencies := ["A"] }).mpr ⟨by decide, by decide, by decide⟩

/-- Claim C5: the retry policy sets the failed task's persisted status back
to PENDING (retry_count 1 < max_retries 3), but the scheduler loop never
retries it: the in-memory pending map and the in-flight map are both empty,
so the loop's `while pending_tasks or in_flight` condition is false and the
loop terminates; the task was started exactly once, and further passes
change nothing.  This contradicts the claim (and the code's own
"Will be retried" comment): the task never again becomes eligible for the
ready-item computation, because _handle_task_failure updates only the
store and never re-inserts the task into pending_tasks. -/
theorem retry_readmission_code_bug :
    taskStatusIn retryDemoRun.db "T1" = some TaskStatus.PENDING
  ∧ taskRetryIn retryDemoRun.db "T1" = some 1
  ∧ retryDemoRun.pending = []
  ∧ retryDemoRun.inFlight = []
  ∧ retryDemoRun.events.count OrchestratorEvent.TASK_STARTED = 1
  ∧ schedRun defaultConfig.max_retries retryDemoRun
      [SchedEvent.loopPass, SchedEvent.loopPass, SchedEvent.loopPass] = retryDemoRun := by
  decide

/-- Claim C3: cleanup_stale_states sets every RUNNING agent to IDLE, sets
every IN_PROGRESS task to PENDING while clearing its agent_id, leaves
rows in every other status (and all other fields of every row) unchanged,
and returns the number of rows it touched. -/
theorem cleanup_sweep_characterization (db : DB) :
    ((cleanup_stale_states db).1.agents.length = db.agents.length)
  ∧ ((cleanup_stale_states db).1.tasks.length = db.tasks.length)
  ∧ List.Forall₂ (fun a a' =>
      (a.status = AgentStatus.RUNNING → a' = { a with status := AgentStatus.IDLE })
      ∧ (a.status ≠ AgentStatus.RUNNING → a' = a))
      db.agents (cleanup_stale_states db).1.agents
  ∧ List.Forall₂ (fun t t' =>
      (t.status = TaskStatus.IN_PROGRESS →
        t' = { t with status := TaskStatus.PENDING, agent_id := none })
      ∧ (t.status ≠ TaskStatus.IN_PROGRESS → t' = t))
      db.tasks (cleanup_stale_states db).1.tasks
  ∧ (cleanup_stale_states db).2 =
      db.agents.countP (fun a => a.status == AgentStatus.RUNNING)
      + db.tasks.countP (fun t => t.status == TaskStatus.IN_PROGRESS) := by
  refine ⟨by simp [cleanup_stale_states], by simp [cleanup_stale_states], ?_, ?_, rfl⟩
  · apply forallTwo_map_self
    intro a _
    by_cases h : a.status = AgentStatus.RUNNING <;> simp [cleanupAgentRow, h]
  · apply forallTwo_map_self
    intro t _
    by_cases h : t.status = TaskStatus.IN_PROGRESS <;> simp [cleanupTaskRow, h]

/-- Witness for C3 at a concrete store: one RUNNING agent and one MERGED
task give exactly one touched row, and the MERGED task row is unchanged. -/
theorem cleanup_sweep_characterization_witness :
    (cleanup_stale_states
      { tasks := [{ task_id := "T", status := TaskStatus.MERGED }],
        agents := [{ agent_id := "A", status := AgentStatus.RUNNING }] }).2 = 1
  ∧ (cleanup_stale_states
      { tasks := [{ task_id := "T", status := TaskStatus.MERGED }],
        agents := [{ agent_id := "A", status := AgentStatus.RUNNING }] }).1.tasks
      = [{ task_id := "T", status := TaskStatus.MERGED }] := by
  have h := cleanup_sweep_characterization
    { tasks := [{ task_id := "T", status := TaskStatus.MERGED }],
      agents := [{ agent_id := "A", status := AgentStatus.RUNNING }] }
  refine ⟨by rw [h.2.2.2.2]; decide, ?_⟩
  have ht := h.2.2.2.1
  simp only [List.forall₂_cons] at ht
  rw [show (cleanup_stale_states
      { tasks := [{ task_id := "T", status := TaskStatus.MERGED }],
        agents := [{ agent_id := "A", status := AgentStatus.RUNNING }] }).1.tasks
      = [cleanupTaskRow { task_id := "T", status := TaskStatus.MERGED }] from rfl]
  rw [show cleanupTaskRow { task_id := "T", status := TaskStatus.MERGED }
      = { task_id := "T", status := TaskStatus.MERGED } from by decide]

/-- Claim C4: one crash-recovery sweep turns every IN_PROGRESS task into
PENDING with no assigned agent; a second sweep with no intervening change
is a no-op on the store and touches 0 rows. -/
theorem cleanup_idempotent (db : DB) :
    List.Forall₂ (fun t t' => t.status = TaskStatus.IN_PROGRESS →
        t'.status = TaskStatus.PENDING ∧ t'.agent_id = none)
      db.tasks (cleanup_stale_states db).1.tasks
  ∧ (cleanup_stale_states (cleanup_stale_states db).1).1 = (cleanup_stale_states db).1
  ∧ (cleanup_stale_states (cleanup_stale_states db).1).2 = 0 := by
  refine ⟨?_, ?_, ?_⟩
  · apply forallTwo_map_self
    intro t _ h
    simp [cleanupTaskRow, h]
  · simp only [cleanup_stale_states, List.map_map]
    congr 1
    · exact List.map_congr_left (fun t _ => cleanupTaskRow_idem t)
    · exact List.map_congr_left (fun a _ => cleanupAgentRow_idem a)
  · simp only [cleanup_stale_states, List.countP_map]
    rw [List.countP_eq_zero.mpr, List.countP_eq_zero.mpr]
    · intro t _
      simpa using cleanupTaskRow_not_in_progress t
    · intro a _
      simpa using cleanupAgentRow_not_running a

/-- Witness for C4: a store with a single IN_PROGRESS task assigned to an
agent becomes PENDING and unassigned, and a second sweep touches nothing. -/
theorem cleanup_idempotent_witness :
    (taskStatusIn (cleanup_stale_states
        { tasks := [{ task_id := "T", status := TaskStatus.IN_PROGRESS,
                      agent_id := some "w" }] }).1 "T" = some TaskStatus.PENDING)
  ∧ (cleanup_stale_states (cleanup_stale_states
        { tasks := [{ task_id := "T", status := TaskStatus.IN_PROGRESS,
                      agent_id := some "w" }] }).1).2 = 0 := by
  have h := cleanup_idempotent
    { tasks := [{ task_id := "T", status := TaskStatus.IN_PROGRESS, agent_id := some "w" }] }
  exact ⟨by decide, h.2.2⟩

/-- Counterexample to C6: in the scheduler loop (max_retries 3), a work
item that fails on every attempt the loop gives it does not end with
retry_count 3 and status BLOCKED: it is attempted exactly once, ends
with retry_count 1 and status PENDING, is never escalated, and the loop
has terminated (pending and in-flight both empty). -/
theorem escalation_threshold_counterexample :
    escalationDemoRun.pending = []
  ∧ escalationDemoRun.inFlight = []
  ∧ taskRetryIn escalationDemoRun.db "T6" = some 1
  ∧ taskStatusIn escalationDemoRun.db "T6" = some TaskStatus.PENDING
  ∧ ¬ taskStatusIn escalationDemoRun.db "T6" = some TaskStatus.BLOCKED
  ∧ escalationDemoRun.failed = []
  ∧ escalationDemoRun.events.count OrchestratorEvent.ESCALATION = 0 := by
  decide

/-- Claim C6 (amended): each invocation of the orchestrator's failure
handler increments the persisted retry_count by exactly one; with
max_retries 3, three invocations on the same task (starting from
retry_count 0) leave it at retry_count 3 with status BLOCKED, put its id
in the failed set and emit an escalation event, the first two leaving it
PENDING; and a BLOCKED task is never selected by the ready computation. -/
theorem escalation_policy_amended (db : DB) (fs : List String)
    (evs : List OrchestratorEvent) (tid : String) (t : Task)
    (hget : get_task db tid = some t) (h0 : t.retry_count = 0) :
    (taskRetryIn (handleFailureStep tid 3 (db, fs, evs)).1 tid = some 1
      ∧ taskStatusIn (handleFailureStep tid 3 (db, fs, evs)).1 tid = some TaskStatus.PENDING)
  ∧ (taskRetryIn (handleFailureStep tid 3 (handleFailureStep tid 3 (db, fs, evs))).1 tid
        = some 2
      ∧ taskStatusIn (handleFailureStep tid 3 (handleFailureStep tid 3 (db, fs, evs))).1 tid
        = some TaskStatus.PENDING)
  ∧ (taskRetryIn (handleFailureStep tid 3 (handleFailureStep tid 3
        (handleFailureStep tid 3 (db, fs, evs)))).1 tid = some 3
      ∧ taskStatusIn (handleFailureStep tid 3 (handleFailureStep tid 3
          (handleFailureStep tid 3 (db, fs, evs)))).1 tid = some TaskStatus.BLOCKED
      ∧ tid ∈ (handleFailureStep tid 3 (handleFailureStep tid 3
          (handleFailureStep tid 3 (db, fs, evs)))).2.1
      ∧ OrchestratorEvent.ESCALATION ∈ (handleFailureStep tid 3 (handleFailureStep tid 3
          (handleFailureStep tid 3 (db, fs, evs)))).2.2)
  ∧ (∀ (dbx : DB) (fsx : List String) (evsx : List OrchestratorEvent)
        (tidx : String) (maxR : Nat) (u : Task),
        get_task dbx tidx = some u →
        taskRetryIn (handle_task_failure dbx fsx evsx tidx maxR).1 tidx
          = some (u.retry_count + 1))
  ∧ (∀ (tasks : List Task) (completed : List String) (u : Task),
        u.status = TaskStatus.BLOCKED → u ∉ get_parallel_tasks tasks completed) := by
  have h1 := handle_failure_row db fs evs tid 3 t hget
  rw [h0] at h1
  have ht1 : get_task (handleFailureStep tid 3 (db, fs, evs)).1 tid
      = some { t with retry_count := 1, status := TaskStatus.PENDING } := by
    have := h1.1
    simpa [handleFailureStep] using this
  have h2 := handle_failure_row (handleFailureStep tid 3 (db, fs, evs)).1
    (handleFailureStep tid 3 (db, fs, evs)).2.1
    (handleFailureStep tid 3 (db, fs, evs)).2.2 tid 3 _ ht1
  have ht2 : get_task (handleFailureStep tid 3 (handleFailureStep tid 3 (db, fs, evs))).1 tid
      = some { t with retry_count := 2, status := TaskStatus.PENDING } := by
    have := h2.1
    simpa [handleFailureStep] using this
  have h3 := handle_failure_row
    (handleFailureStep tid 3 (handleFailureStep tid 3 (db, fs, evs))).1
    (handleFailureStep tid 3 (handleFailureStep tid 3 (db, fs, evs))).2.1
    (handleFailureStep tid 3 (handleFailureStep tid 3 (db, fs, evs))).2.2 tid 3 _ ht2
  have ht3 : get_task (handleFailureStep tid 3 (handleFailureStep tid 3
        (handleFailureStep tid 3 (db, fs, evs)))).1 tid
      = some { t with retry_count := 3, status := TaskStatus.BLOCKED } := by
    have := h3.1
    simpa [handleFailureStep] using this
  refine ⟨⟨?_, ?_⟩, ⟨?_, ?_⟩, ⟨?_, ?_, ?_, ?_⟩, ?_, ?_⟩
  · simp [taskRetryIn, ht1]
  · simp [taskStatusIn, ht1]
  · simp [taskRetryIn, ht2]
  · simp [taskStatusIn, ht2]
  · simp [taskRetryIn, ht3]
  · simp [taskStatusIn, ht3]
  · have := (h3.2.1 (by simp)).1
    simpa [handleFailureStep] using this
  · have := (h3.2.1 (by simp)).2
    simpa [handleFailureStep] using this
  · intro dbx fsx evsx tidx maxR u hu
    have := (handle_failure_row dbx fsx evsx tidx maxR u hu).1
    simp [taskRetryIn, this]
  · intro tasks completed u hst hmem
    have h := (List.mem_filter.mp hmem).2
    simp [hst] at h

/-- Witness for C6 (amended) at a concrete store: three failures of task X
leave retry_count 3 and status BLOCKED. -/
theorem escalation_policy_amended_witness :
    taskRetryIn (handleFailureStep "X" 3 (handleFailureStep "X" 3
        (handleFailureStep "X" 3 ({ tasks := [{ task_id := "X" }] }, [], [])))).1 "X"
      = some 3
  ∧ taskStatusIn (handleFailureStep "X" 3 (handleFailureStep "X" 3
        (handleFailureStep "X" 3 ({ tasks := [{ task_id := "X" }] }, [], [])))).1 "X"
      = some TaskStatus.BLOCKED := by
  have h := escalation_policy_amended { tasks := [{ task_id := "X" }] } [] [] "X"
    { task_id := "X" } (by decide) rfl
  exact ⟨h.2.2.1.1, h.2.2.1.2.1⟩

/-- Counterexample to C7: a task whose persisted status has reached FAILED
(written by the executing agent's exception handler) has its status
changed again by the scheduler's failure handling, which sets it back to
PENDING. -/
theorem terminal_monotonicity_counterexample :
    taskStatusIn terminalDemoFailed "T7" = some TaskStatus.FAILED
  ∧ taskStatusIn (handle_task_failure terminalDemoFailed [] [] "T7" 3).1 "T7"
      = some TaskStatus.PENDING
  ∧ TaskStatus.PENDING ≠ TaskStatus.FAILED := by
  decide

/-- Claim C7 (amended): a task whose status is MERGED or BLOCKED is never
re-admitted (the ready computation only ever returns PENDING tasks), the
crash-recovery sweep leaves MERGED, BLOCKED and FAILED rows untouched, and
failure handling keeps a BLOCKED task (whose retry_count already reached
max_retries) BLOCKED; FAILED however is not stable under failure handling,
as the counterexample shows. -/
theorem terminal_monotonicity_amended :
    (∀ (tasks : List Task) (completed : List String) (t : Task),
        t ∈ get_parallel_tasks tasks completed → t.status = TaskStatus.PENDING)
  ∧ (∀ db : DB, List.Forall₂ (fun t t' =>
        (t.status = TaskStatus.MERGED ∨ t.status = TaskStatus.BLOCKED
          ∨ t.status = TaskStatus.FAILED) → t' = t)
        db.tasks (cleanup_stale_states db).1.tasks)
  ∧ (∀ (db : DB) (fs : List String) (evs : List OrchestratorEvent) (tid : String)
        (maxR : Nat) (t : Task), get_task db tid = some t →
        t.status = TaskStatus.BLOCKED → maxR ≤ t.retry_count →
        taskStatusIn (handle_task_failure db fs evs tid maxR).1 tid
          = some TaskStatus.BLOCKED) := by
  refine ⟨?_, ?_, ?_⟩
  · intro tasks completed t hmem
    have h := (List.mem_filter.mp hmem).2
    simp at h
    exact h.1
  · intro db
    apply forallTwo_map_self
    intro t _ ht
    rcases ht with h | h | h <;> simp [cleanupTaskRow, h]
  · intro db fs evs tid maxR t hget hst hge
    have hrow := (handle_failure_row db fs evs tid maxR t hget).1
    have hge' : t.retry_count + 1 ≥ maxR := le_trans hge (Nat.le_succ _)
    rw [if_pos hge'] at hrow
    simp [taskStatusIn, hrow]

/-- Witness for C7 (amended): a MERGED task is not returned by the ready
computation, survives the sweep unchanged, and a BLOCKED task at the
retry limit stays BLOCKED under failure handling. -/
theorem terminal_monotonicity_amended_witness :
    (cleanup_stale_states { tasks := [{ task_id := "M", status := TaskStatus.MERGED }] }).1.tasks
      = [{ task_id := "M", status := TaskStatus.MERGED }]
  ∧ taskStatusIn (handle_task_failure
      { tasks := [{ task_id := "B", status := TaskStatus.BLOCKED, retry_count := 3 }] }
      [] [] "B" 3).1 "B" = some TaskStatus.BLOCKED := by
  constructor
  · have h := (terminal_monotonicity_amended.2.1
      { tasks := [{ task_id := "M", status := TaskStatus.MERGED }] })
    rw [show (cleanup_stale_states
        { tasks := [{ task_id := "M", status := TaskStatus.MERGED }] }).1.tasks
        = [cleanupTaskRow { task_id := "M", status := TaskStatus.MERGED }] from rfl] at h
    simp only [List.forall₂_cons] at h
    have h1 := h.1 (Or.inl trivial)
    rw [show (cleanup_stale_states
        { tasks := [{ task_id := "M", status := TaskStatus.MERGED }] }).1.tasks
        = [cleanupTaskRow { task_id := "M", status := TaskStatus.MERGED }] from rfl, h1]
  · exact terminal_monotonicity_amended.2.2
      { tasks := [{ task_id := "B", status := TaskStatus.BLOCKED, retry_count := 3 }] }
      [] [] "B" 3 { task_id := "B", status := TaskStatus.BLOCKED, retry_count := 3 }
      (by decide) rfl (by decide)

/-- A finish event never changes the in-memory pending map. -/
theorem applyFinish_pending (maxR : Nat) (s : SchedState) (tid : String) (oc : DevOutcome) :
    (applyFinish maxR s tid oc).pending = s.pending := by
  by_cases h : s.inFlight.any (fun e => e.1 == tid && e.2 == none) <;> simp [applyFinish, h]

/-- A finish event never changes the pause gate. -/
theorem applyFinish_paused (maxR : Nat) (s : SchedState) (tid : String) (oc : DevOutcome) :
    (applyFinish maxR s tid oc).paused = s.paused := by
  by_cases h : s.inFlight.any (fun e => e.1 == tid && e.2 == none) <;> simp [applyFinish, h]

/-- A finish event never adds or removes in-flight items, it only records
results. -/
theorem applyFinish_keys (maxR : Nat) (s : SchedState) (tid : String) (oc : DevOutcome) :
    (applyFinish maxR s tid oc).inFlight.map Prod.fst = s.inFlight.map Prod.fst := by
  by_cases h : s.inFlight.any (fun e => e.1 == tid && e.2 == none)
  · simp only [applyFinish, h, if_true]
    exact mapFst_set_result s.inFlight tid _
  · simp [applyFinish, h]

/-- A finish event does not consult the pause gate: its effect on the
in-flight results and the store is the same whether or not the machine is
paused. -/
theorem applyFinish_pause_blind (maxR : Nat) (s : SchedState) (tid : String)
    (oc : DevOutcome) (b b' : Bool) :
    (applyFinish maxR { s with paused := b } tid oc).inFlight
      = (applyFinish maxR { s with paused := b' } tid oc).inFlight
  ∧ (applyFinish maxR { s with paused := b } tid oc).db
      = (applyFinish maxR { s with paused := b' } tid oc).db := by
  by_cases h : s.inFlight.any (fun e => e.1 == tid && e.2 == none) <;>
    simp [applyFinish, h]

/-- Claim C8: pause does not interrupt in-flight executions (it leaves the
pending, in-flight, pool, store and completed structures untouched and
only closes the gate); while the gate is closed no event other than resume
admits a pending item (the in-flight ids are unchanged and the pending map
is unchanged, a loop pass being a no-op); an in-flight execution still
finishes while paused exactly as it would unpaused; and resume reopens the
gate without touching pending or in-flight work. -/
theorem pause_admission_semantics (maxR : Nat) (s : SchedState) :
    ((schedStep maxR s SchedEvent.pause).pending = s.pending
      ∧ (schedStep maxR s SchedEvent.pause).inFlight = s.inFlight
      ∧ (schedStep maxR s SchedEvent.pause).pool = s.pool
      ∧ (schedStep maxR s SchedEvent.pause).db = s.db
      ∧ (schedStep maxR s SchedEvent.pause).completed = s.completed
      ∧ (schedStep maxR s SchedEvent.pause).paused = true)
  ∧ (∀ e : SchedEvent, s.paused = true → e ≠ SchedEvent.resume →
      (schedStep maxR s e).pending = s.pending
      ∧ (schedStep maxR s e).inFlight.map Prod.fst = s.inFlight.map Prod.fst
      ∧ (schedStep maxR s e).paused = true)
  ∧ (∀ (tid : String) (oc : DevOutcome),
      (schedStep maxR { s with paused := true } (SchedEvent.finish tid oc)).inFlight
        = (schedStep maxR { s with paused := false } (SchedEvent.finish tid oc)).inFlight
      ∧ (schedStep maxR { s with paused := true } (SchedEvent.finish tid oc)).db
        = (schedStep maxR { s with paused := false } (SchedEvent.finish tid oc)).db)
  ∧ ((schedStep maxR s SchedEvent.resume).paused = false
      ∧ (schedStep maxR s SchedEvent.resume).pending = s.pending
      ∧ (schedStep maxR s SchedEvent.resume).inFlight = s.inFlight) := by
  refine ⟨⟨rfl, rfl, rfl, rfl, rfl, rfl⟩, ?_, ?_, rfl, rfl, rfl⟩
  · intro e hp hne
    cases e with
    | loopPass => simp [schedStep, hp]
    | finish tid oc =>
      exact ⟨applyFinish_pending maxR s tid oc, applyFinish_keys maxR s tid oc,
        (applyFinish_paused maxR s tid oc).trans hp⟩
    | pause => exact ⟨rfl, rfl, rfl⟩
    | resume => exact absurd rfl hne
  · intro tid oc
    exact applyFinish_pause_blind maxR s tid oc true false

/-- Witness for C8: pausing a machine with one running item and one
pending item admits nothing on the next pass. -/
theorem pause_admission_semantics_witness :
    (schedStep 3
      { pending := [{ task_id := "P" }]
        inFlight := [("R", none)]
        pool := { max_workers := 5, active := [("R", "worker-1")], worker_count := 1 }
        db := {}
        completed := []
        failed := []
        paused := true
        ost := OrchestratorState.PAUSED
        events := [] } SchedEvent.loopPass).pending = [{ task_id := "P" }]
  ∧ (schedStep 3
      { pending := [{ task_id := "P" }]
        inFlight := [("R", none)]
        pool := { max_workers := 5, active := [("R", "worker-1")], worker_count := 1 }
        db := {}
        completed := []
        failed := []
        paused := true
        ost := OrchestratorState.PAUSED
        events := [] } SchedEvent.loopPass).paused = true := by
  have h := (pause_admission_semantics 3
    { pending := [{ task_id := "P" }]
      inFlight := [("R", none)]
      pool := { max_workers := 5, active := [("R", "worker-1")], worker_count := 1 }
      db := {}
      completed := []
      failed := []
      paused := true
      ost := OrchestratorState.PAUSED
      events := [] }).2.1 SchedEvent.loopPass rfl (by decide)
  exact ⟨h.1, h.2.2⟩

/-- Counterexample to C9: when pause is called while the machine is
REVIEWING, the pause/resume pair does not restore the pre-pause state:
resume unconditionally sets the state to EXECUTING. -/
theorem pause_state_counterexample :
    reviewingDemoState.ost = OrchestratorState.REVIEWING
  ∧ (schedRun 3 reviewingDemoState [SchedEvent.pause, SchedEvent.resume]).ost
      = OrchestratorState.EXECUTING
  ∧ OrchestratorState.EXECUTING ≠ OrchestratorState.REVIEWING
  ∧ schedRun 3 reviewingDemoState [SchedEvent.pause, SchedEvent.resume]
      ≠ reviewingDemoState := by
  decide

/-- Claim C9 (amended): the pause/resume pair restores the pause gate and
leaves all scheduler bookkeeping (pending, in-flight, pool, store,
completed and failed sets) unchanged, but overwrites the machine's state
field: pause sets it to PAUSED and resume sets it to EXECUTING, so the
pre-pause state is restored exactly when it was EXECUTING. -/
theorem pause_resume_amended (maxR : Nat) (s : SchedState) :
    schedStep maxR (schedStep maxR s SchedEvent.pause) SchedEvent.resume
      = { s with paused := false, ost := OrchestratorState.EXECUTING,
                 events := s.events ++ [OrchestratorEvent.PAUSED] }
  ∧ (s.ost = OrchestratorState.EXECUTING →
      (schedStep maxR (schedStep maxR s SchedEvent.pause) SchedEvent.resume).ost = s.ost) := by
  refine ⟨rfl, ?_⟩
  intro h
  rw [h]
  rfl

/-- Witness for C9 (amended): from an EXECUTING machine the pair restores
the state field. -/
theorem pause_resume_amended_witness :
    (schedStep 3 (schedStep 3
      { pending := []
        inFlight := []
        pool := { max_workers := 5 }
        db := {}
        completed := []
        failed := []
        paused := false
        ost := OrchestratorState.EXECUTING
        events := [] } SchedEvent.pause) SchedEvent.resume).ost
      = OrchestratorState.EXECUTING := by
  exact (pause_resume_amended 3
    { pending := []
      inFlight := []
      pool := { max_workers := 5 }
      db := {}
      completed := []
      failed := []
      paused := false
      ost := OrchestratorState.EXECUTING
      events := [] }).2 rfl

/-- The status-update row transformer with no agent argument leaves the
agent_id column alone. -/
theorem updStatusRow_agent_none (tid : String) (st : TaskStatus) (t : Task) :
    (updStatusRow tid st none t).agent_id = t.agent_id := by
  by_cases h : t.task_id = tid <;> simp [updStatusRow, h, pyTruthy]

/-- update_task_status without an agent argument preserves the agent_id
column of every row. -/
theorem mapAgent_update_none (db : DB) (tid : String) (st : TaskStatus) :
    (update_task_status db tid st none).tasks.map Task.agent_id
      = db.tasks.map Task.agent_id := by
  unfold update_task_status
  rw [List.map_map]
  exact List.map_congr_left (fun t _ => updStatusRow_agent_none tid st t)

/-- increment_retry preserves the agent_id column of every row. -/
theorem mapAgent_increment (db : DB) (tid : String) :
    (increment_retry db tid).1.tasks.map Task.agent_id = db.tasks.map Task.agent_id := by
  rw [increment_retry_fst]
  rw [List.map_map]
  refine List.map_congr_left (fun t _ => ?_)
  by_cases h : t.task_id = tid <;> simp [incRetryRow, h]

/-- update_task_tokens preserves the agent_id column of every row. -/
theorem mapAgent_tokens (db : DB) (tid : String) (n : Nat) :
    (update_task_tokens db tid n).tasks.map Task.agent_id
      = db.tasks.map Task.agent_id := by
  unfold update_task_tokens
  rw [List.map_map]
  refine List.map_congr_left (fun t _ => ?_)
  by_cases h : t.task_id = tid <;> simp [addTokensRow, h]

/-- Claim C10: update_task_status called without an agent_id leaves the
stored agent_id unchanged, and with any agent argument it never clears a
stored assignment; the retry policy's failure handling preserves the
agent_id column entirely, so a task it sets back to PENDING retains the
executor that just failed it; increment_retry and update_task_tokens never
touch the column either; only cleanup_stale_states clears an assignment,
and it does so exactly for the IN_PROGRESS rows. -/
theorem agent_assignment_frame :
    (∀ (db : DB) (tid : String) (st : TaskStatus),
        (update_task_status db tid st none).tasks.map Task.agent_id
          = db.tasks.map Task.agent_id)
  ∧ (∀ (db : DB) (tid : String) (st : TaskStatus) (aid : Option String),
        List.Forall₂ (fun t t' => t'.agent_id = none → t.agent_id = none)
          db.tasks (update_task_status db tid st aid).tasks)
  ∧ (∀ (db : DB) (fs : List String) (evs : List OrchestratorEvent)
        (tid : String) (maxR : Nat),
        (handle_task_failure db fs evs tid maxR).1.tasks.map Task.agent_id
          = db.tasks.map Task.agent_id)
  ∧ (∀ (db : DB) (tid : String),
        (increment_retry db tid).1.tasks.map Task.agent_id = db.tasks.map Task.agent_id)
  ∧ (∀ (db : DB) (tid : String) (n : Nat),
        (update_task_tokens db tid n).tasks.map Task.agent_id
          = db.tasks.map Task.agent_id)
  ∧ (∀ db : DB, List.Forall₂
        (fun t t' => t.status = TaskStatus.IN_PROGRESS → t'.agent_id = none)
        db.tasks (cleanup_stale_states db).1.tasks) := by
  refine ⟨mapAgent_update_none, ?_, ?_, mapAgent_increment, mapAgent_tokens, ?_⟩
  · intro db tid st aid
    apply forallTwo_map_self
    intro t _
    by_cases hk : t.task_id = tid
    · by_cases ha : pyTruthy aid
      · cases aid with
        | none => simp [pyTruthy] at ha
        | some a =>
          intro hnone
          simp [updStatusRow, hk, ha] at hnone
      · simp [updStatusRow, hk, ha]
    · simp [updStatusRow, hk]
  · intro db fs evs tid maxR
    unfold handle_task_failure
    cases hget : get_task db tid with
    | none => rfl
    | some t =>
      by_cases hge : (increment_retry db tid).2 ≥ maxR
      · simp only [hge, if_true]
        rw [mapAgent_update_none, mapAgent_increment]
      · simp only [hge, if_false]
        rw [mapAgent_update_none, mapAgent_increment]
  · intro db
    apply forallTwo_map_self
    intro t _ h
    simp [cleanupTaskRow, h]

/-- Witness for C10: at a concrete store the status update without agent
keeps the assignment; and a task a worker ran and failed still carries
that worker's id after the retry policy set it back to PENDING. -/
theorem agent_assignment_frame_witness :
    (update_task_status { tasks := [{ task_id := "T", agent_id := some "w" }] } "T"
        TaskStatus.PENDING none).tasks.map Task.agent_id = [some "w"]
  ∧ taskAgentIn (handle_task_failure
        (developer_run { tasks := [{ task_id := "T" }] } "T" "worker-1" 3
          (DevOutcome.outputs { text := "x", stop_reason := some StopReason.END_TURN }
            { text := "" })).1 [] [] "T" 3).1 "T" = some (some "worker-1")
  ∧ taskStatusIn (handle_task_failure
        (developer_run { tasks := [{ task_id := "T" }] } "T" "worker-1" 3
          (DevOutcome.outputs { text := "x", stop_reason := some StopReason.END_TURN }
            { text := "" })).1 [] [] "T" 3).1 "T" = some TaskStatus.PENDING := by
  refine ⟨?_, by decide, by decide⟩
  rw [agent_assignment_frame.1 { tasks := [{ task_id := "T", agent_id := some "w" }] }
    "T" TaskStatus.PENDING]
  decide

end Autonoma
